import Mathlib

/-!
Verification of the camera-monitoring orchestration layer: shallow embedding
of the StateWatcher, ApiController, BufferedVideoStream and inference-loop
logic, with theorems settling the specified properties.
-/

/-! ## ApiController: response parsing (`get_state`) -/

/-- Outcome of `r.json()` as observed by `ApiController.get_state`:
the call raises, returns a non-list value, or returns a list whose
elements each carry an optional `Valor` field (already stringified). -/
inductive Body where
  | noJson : Body
  | notList : Body
  | list : List (Option String) → Body
deriving DecidableEq

/-- A `requests.Response` (or `_FakeResponse`) as far as the client inspects
it: a status code, a JSON body, and the `Retry-After` header (`none` when
absent, `some none` when present but unparseable as `int`, `some (some n)`
when it parses to `n`). -/
structure Response where
  status_code : Int
  body : Body
  retry_after : Option (Option Int) := none
deriving DecidableEq

/-- `ApiController._is_success`: 2xx status codes. -/
def is_success (r : Response) : Bool :=
  200 ≤ r.status_code && r.status_code < 300

/-- Python `str(data[0].get("Valor"))`: a missing field prints as `"None"`. -/
def strOfValor : Option String → String
  | none => "None"
  | some s => s

/-- `ApiController.get_state` applied to the response produced by `_request`:
on a 2xx response with a non-empty JSON list it compares the first element's
`Valor` with the string `"6"`; every other case (non-2xx, JSON error,
non-list, empty list) falls through to `return False`. -/
def ApiController.get_state (r : Response) : Bool :=
  if is_success r then
    match r.body with
    | Body.list (v :: _) => strOfValor v == "6"
    | _ => false
  else false

/-- A poll fails at the HTTP level when the response is non-2xx (this includes
the synthetic 599 returned after a double transport failure) or its body is
malformed or empty. -/
def httpPollFailed (r : Response) : Bool :=
  !is_success r ||
    (match r.body with
     | Body.list (_ :: _) => false
     | _ => true)

/-! ## StateWatcher -/

/-- The mutable fields of `StateWatcher` that the polling logic touches. -/
structure WatcherState where
  _state : Bool
  consecutive_failures : Nat
  last_error : Option String
deriving DecidableEq

/-- `StateWatcher.__init__`: state starts `False`, no failures recorded. -/
def StateWatcher.initState : WatcherState :=
  { _state := false, consecutive_failures := 0, last_error := none }

/-- `StateWatcher._set_state`: under the lock the state is replaced iff it
changed; the returned `Option Bool` is the argument of the `on_change`
callback fired after the lock is released (none when unchanged). -/
def StateWatcher.set_state (s : Bool) (new_state : Bool) :
    Bool × Option Bool :=
  if new_state ≠ s then (new_state, some new_state) else (s, none)

/-- `StateWatcher._poll_once` on the outcome of `self.api.get_state(po)`:
a returned boolean is installed via `_set_state` and the failure counters are
cleared; an exception increments `consecutive_failures`, records the error
and leaves the state untouched (the backoff sleep is timing, not state).
The second component is the `on_change` invocation, if any. -/
def StateWatcher.poll_once (w : WatcherState) (r : Except String Bool) :
    WatcherState × Option Bool :=
  match r with
  | .ok new_state =>
      let sc := StateWatcher.set_state w._state new_state
      ({ _state := sc.1, consecutive_failures := 0, last_error := none }, sc.2)
  | .error e =>
      ({ w with consecutive_failures := w.consecutive_failures + 1,
                last_error := some e }, none)

/-- `StateWatcher.get_state`: read the current state under the lock. -/
def StateWatcher.get_state (w : WatcherState) : Bool := w._state

/-- One poll seen end to end through the HTTP layer: `api.get_state` either
raises (propagated to `_poll_once`) or parses the response `_request`
returned. -/
def StateWatcher.pollHttp (w : WatcherState) (r : Except String Response) :
    WatcherState × Option Bool :=
  StateWatcher.poll_once w (r.map ApiController.get_state)

/-- Helper for `StateWatcher.runPolls`: thread the watcher state through
`_poll_once` over a list of poll outcomes, accumulating the `on_change`
invocations in order. -/
def StateWatcher.runPollsAux (w : WatcherState) (log : List Bool) :
    List (Except String Bool) → WatcherState × List Bool
  | [] => (w, log)
  | r :: rs =>
      let pc := StateWatcher.poll_once w r
      StateWatcher.runPollsAux pc.1 (log ++ pc.2.toList) rs

/-- The poll sequence processed by `StateWatcher.run` (first poll immediate,
then one per interval): threads the watcher state through `_poll_once` and
collects the `on_change` invocations in order. -/
def StateWatcher.runPolls (w : WatcherState) (rs : List (Except String Bool)) :
    WatcherState × List Bool :=
  StateWatcher.runPollsAux w [] rs

/-- Spec-side description of change notification: starting from state `s`,
each polled value that differs from the current state is notified exactly
once, in order. -/
def transitionsFrom (s : Bool) : List Bool → List Bool
  | [] => []
  | v :: vs => (if v ≠ s then [v] else []) ++ transitionsFrom v vs

/-! ## Lemmas about polls -/

/-- On an HTTP-level poll failure the parsed state is `False`. -/
theorem ApiController.get_state_eq_false_of_failed (r : Response)
    (h : httpPollFailed r = true) : ApiController.get_state r = false := by
  unfold ApiController.get_state httpPollFailed at *
  cases hs : is_success r with
  | false => simp [hs]
  | true =>
    simp only [hs, Bool.not_true, Bool.false_or] at h
    cases hb : r.body with
    | noJson => simp [hs]
    | notList => simp [hs]
    | list l =>
      cases l with
      | nil => simp [hs]
      | cons a t => rw [hb] at h; exact absurd h (by simp)

/-- Installing `False` via `_set_state` always leaves the state `False`. -/
theorem StateWatcher.set_state_false_fst (s : Bool) :
    (StateWatcher.set_state s false).1 = false := by
  cases s <;> simp [StateWatcher.set_state]

/-- The `on_change` log of a run of successful polls is exactly the list of
observed transitions of the state, starting from the current state. -/
theorem StateWatcher.runPollsAux_ok_log (vs : List Bool) :
    ∀ (w : WatcherState) (log : List Bool),
      (StateWatcher.runPollsAux w log (vs.map Except.ok)).2
        = log ++ transitionsFrom w._state vs := by
  induction vs with
  | nil => intro w log; simp [StateWatcher.runPollsAux, transitionsFrom]
  | cons v vs ih =>
    intro w log
    simp only [List.map_cons, StateWatcher.runPollsAux, transitionsFrom]
    by_cases h : v = w._state
    · simp [StateWatcher.poll_once, StateWatcher.set_state, h, ih]
    · simp [StateWatcher.poll_once, StateWatcher.set_state, h, ih]

/-! ## Claim C1 -/

/-- Claim C1 counterexample: with the last known good value `True`, a poll
whose HTTP request fails (here a 500 status) does change the state observed
by callers: `get_state()` returns `False` afterwards, because
`ApiController.get_state` maps the failed response to `False` instead of
raising. -/
theorem C1_counterexample :
    httpPollFailed { status_code := 500, body := Body.noJson } = true ∧
    StateWatcher.get_state
      { _state := true, consecutive_failures := 0, last_error := none } = true ∧
    StateWatcher.get_state
      (StateWatcher.pollHttp
        { _state := true, consecutive_failures := 0, last_error := none }
        (Except.ok { status_code := 500, body := Body.noJson })).1 = false := by
  decide

/-- Claim C1 (amended): `StateWatcher.get_state` never raises (it is a total
read of the stored value), and a poll in which `api.get_state` raises an
exception leaves the state unchanged; but a poll whose HTTP request fails
without raising (transport double failure yielding the synthetic 599,
non-2xx status, or malformed/empty body) is parsed by `ApiController.get_state`
as the value `False` and overwrites the state with `False` rather than
retaining the last known good value. -/
theorem C1_amended (w : WatcherState) (e : String) (r : Response)
    (hr : httpPollFailed r = true) :
    StateWatcher.get_state (StateWatcher.pollHttp w (Except.error e)).1
      = StateWatcher.get_state w ∧
    StateWatcher.get_state (StateWatcher.pollHttp w (Except.ok r)).1 = false := by
  constructor
  · rfl
  · show (StateWatcher.set_state w._state (ApiController.get_state r)).1 = false
    rw [ApiController.get_state_eq_false_of_failed r hr]
    exact StateWatcher.set_state_false_fst w._state

/-- Witness for `C1_amended` at a concrete watcher state and the synthetic
599 response. -/
theorem C1_amended_witness :
    httpPollFailed { status_code := 599, body := Body.noJson } = true ∧
    (StateWatcher.get_state
        (StateWatcher.pollHttp
          { _state := true, consecutive_failures := 0, last_error := none }
          (Except.error "timeout")).1 = true ∧
      StateWatcher.get_state
        (StateWatcher.pollHttp
          { _state := true, consecutive_failures := 0, last_error := none }
          (Except.ok { status_code := 599, body := Body.noJson })).1 = false) :=
  ⟨by decide,
    C1_amended { _state := true, consecutive_failures := 0, last_error := none }
      "timeout" { status_code := 599, body := Body.noJson } (by decide)⟩

/-! ## Claim C8 -/

/-- Claim C8 counterexample: with the watcher freshly initialised
(state `False`) and the first, immediate poll returning `False`, no
`on_change` notification fires at all — the initial value is not notified
when it coincides with the default `False`. -/
theorem C8_counterexample :
    (StateWatcher.runPolls StateWatcher.initState [Except.ok false]).2 = [] := by
  decide

/-- Claim C8 (amended): over any sequence of successful polls the `on_change`
callback fires exactly once per observed transition of the boolean state
(the log equals the transition list relative to the initial default `False`,
so the first polled value is notified iff it is `True`, i.e. iff it differs
from the default); a failed poll never fires the callback and never changes
the state. The callback argument is produced by `_set_state` after the lock
region, but lock discipline itself is outside this embedding. -/
theorem C8_amended :
    (∀ (vs : List Bool),
      (StateWatcher.runPolls StateWatcher.initState (vs.map Except.ok)).2
        = transitionsFrom false vs) ∧
    ∀ (w : WatcherState) (e : String),
      (StateWatcher.poll_once w (Except.error e)).2 = none ∧
      (StateWatcher.poll_once w (Except.error e)).1._state = w._state := by
  constructor
  · intro vs
    exact StateWatcher.runPollsAux_ok_log vs StateWatcher.initState []
  · intro w e
    exact ⟨rfl, rfl⟩

/-! ## BufferedVideoStream: bounded drop-oldest frame buffer -/

/-- Python `queue.Queue` fullness: `full()` is true iff `maxsize` is positive
and `qsize() >= maxsize` (a non-positive `maxsize` means unbounded). -/
def queueFull (maxsize len : Nat) : Bool :=
  0 < maxsize && maxsize ≤ len

/-- The buffer-related fields of `BufferedVideoStream`: the FIFO
`frame_buffer` (head is the oldest frame), its `maxsize`, and the
`last_frame` cache. Frames are identified by a `Nat` payload. -/
structure StreamBuf where
  buf : List Nat
  maxsize : Nat
  last_frame : Option Nat
deriving DecidableEq

/-- A freshly constructed stream: empty queue of capacity `buffer_size`
(default 1), no last frame. -/
def BufferedVideoStream.initBuf (buffer_size : Nat) : StreamBuf :=
  { buf := [], maxsize := buffer_size, last_frame := none }

/-- The push performed by `run` once a frame is grabbed: if the queue is
full, `get_nowait()` evicts the oldest frame; then `put_nowait(frame)`
inserts the new frame unless the queue is still full (the `queue.Full`
exception is swallowed); finally `last_frame` is updated under its lock. -/
def BufferedVideoStream.push (s : StreamBuf) (f : Nat) : StreamBuf :=
  let b := if queueFull s.maxsize s.buf.length then s.buf.tail else s.buf
  let b2 := if queueFull s.maxsize b.length then b else b ++ [f]
  { s with buf := b2, last_frame := some f }

/-- A sequence of producer pushes with no consumer reads in between. -/
def BufferedVideoStream.pushAll (s : StreamBuf) (fs : List Nat) : StreamBuf :=
  fs.foldl BufferedVideoStream.push s

/-- `BufferedVideoStream.read` with the default zero timeout:
`get_nowait()` pops the oldest buffered frame; on an empty queue it falls
back to the `last_frame` cache. -/
def BufferedVideoStream.read (s : StreamBuf) : Option Nat × StreamBuf :=
  match s.buf with
  | f :: rest => (some f, { s with buf := rest })
  | [] => (s.last_frame, s)

/-! ## BufferedVideoStream: reconnect backoff and retry budget -/

/-- `BufferedVideoStream._sleep_with_backoff`: the base delay before jitter.
With `mini` the minimum is used; otherwise `min(hi, lo * 2 ** max(0, retry_count - 1))`.
Truncated `Nat` subtraction matches Python `max(0, retry_count - 1)`. -/
def BufferedVideoStream.sleep_with_backoff_base
    (lo hi : ℚ) (retry_count : Nat) (mini : Bool) : ℚ :=
  if mini then lo else min hi (lo * 2 ^ (retry_count - 1))

/-- Total sleep of `_sleep_with_backoff`: base plus the jitter
`random.random() * 0.3`, a value `j` with `0 ≤ j < 3/10`. -/
def BufferedVideoStream.sleep_with_backoff_delay
    (lo hi : ℚ) (retry_count : Nat) (mini : Bool) (j : ℚ) : ℚ :=
  BufferedVideoStream.sleep_with_backoff_base lo hi retry_count mini + j

/-- In `run`, the k-th consecutive connect failure first increments
`_retry_count` to `k` and then (when the loop retries) sleeps
`_sleep_with_backoff()` with `mini = False`. -/
def BufferedVideoStream.connectFailureDelay (lo hi : ℚ) (k : Nat) (j : ℚ) : ℚ :=
  BufferedVideoStream.sleep_with_backoff_delay lo hi k false j

/-- The fields of `BufferedVideoStream` the connect-retry path of `run`
touches, plus whether the background loop is still running
(`is_alive()` in `get_status`). -/
structure StreamLoopState where
  retry_count : Nat
  alive : Bool
deriving DecidableEq

/-- The `get_status()` fields relevant to loop death. -/
structure StreamStatus where
  alive : Bool
  retry_count : Nat
deriving DecidableEq

/-- `BufferedVideoStream.get_status`, restricted to the fields that make a
permanent loop death observable. -/
def BufferedVideoStream.get_status (s : StreamLoopState) : StreamStatus :=
  { alive := s.alive, retry_count := s.retry_count }

/-- One failed `_connect()` inside `run`: if the loop is still running,
`_retry_count` is incremented and the loop breaks permanently iff
`max_retries` is configured and `self._retry_count >= self.max_retries`
holds for the new count; a dead loop does nothing. -/
def BufferedVideoStream.onConnectFailure (max_retries : Option Nat)
    (s : StreamLoopState) : StreamLoopState :=
  if s.alive then
    { retry_count := s.retry_count + 1,
      alive := ! (match max_retries with
                  | some m => decide (m ≤ s.retry_count + 1)
                  | none => false) }
  else s

/-- Loop state after `k` consecutive connect failures starting from a fresh
stream (`_retry_count = 0`, loop running). -/
def BufferedVideoStream.afterFailures (max_retries : Option Nat) :
    Nat → StreamLoopState
  | 0 => { retry_count := 0, alive := true }
  | k + 1 =>
      BufferedVideoStream.onConnectFailure max_retries
        (BufferedVideoStream.afterFailures max_retries k)

/-! ## Buffer lemmas -/

/-- With capacity 1 and at most one buffered frame, a push always leaves
exactly the new frame in the queue (drop-oldest). -/
theorem BufferedVideoStream.push_buf_of_le_one (s : StreamBuf) (f : Nat)
    (hm : s.maxsize = 1) (hl : s.buf.length ≤ 1) :
    (BufferedVideoStream.push s f).buf = [f] := by
  cases hb : s.buf with
  | nil => simp [BufferedVideoStream.push, queueFull, hm, hb]
  | cons a t =>
    have ht : t = [] := by
      rw [hb] at hl
      simpa using hl
    subst ht
    simp [BufferedVideoStream.push, queueFull, hm, hb]

/-- Pushing never changes the capacity. -/
theorem BufferedVideoStream.push_maxsize (s : StreamBuf) (f : Nat) :
    (BufferedVideoStream.push s f).maxsize = s.maxsize := rfl

/-- With capacity 1 the queue never holds more than one frame. -/
theorem BufferedVideoStream.pushAll_len_le_one (fs : List Nat) :
    ∀ s : StreamBuf, s.maxsize = 1 → s.buf.length ≤ 1 →
      (BufferedVideoStream.pushAll s fs).buf.length ≤ 1 := by
  induction fs with
  | nil =>
    intro s _ hl
    simpa [BufferedVideoStream.pushAll] using hl
  | cons v vs ih =>
    intro s hm hl
    have h1 := BufferedVideoStream.push_buf_of_le_one s v hm hl
    have h3 : (BufferedVideoStream.push s v).buf.length ≤ 1 := by rw [h1]; simp
    simpa [BufferedVideoStream.pushAll] using
      ih (BufferedVideoStream.push s v) hm h3

/-- With capacity 1, after a non-empty sequence of pushes the queue holds
exactly the last pushed frame. -/
theorem BufferedVideoStream.pushAll_concat_buf (fs : List Nat) :
    ∀ s : StreamBuf, s.maxsize = 1 → s.buf.length ≤ 1 →
      ∀ f, (BufferedVideoStream.pushAll s (fs ++ [f])).buf = [f] := by
  induction fs with
  | nil =>
    intro s hm hl f
    simpa [BufferedVideoStream.pushAll] using
      BufferedVideoStream.push_buf_of_le_one s f hm hl
  | cons v vs ih =>
    intro s hm hl f
    have h1 := BufferedVideoStream.push_buf_of_le_one s v hm hl
    have h3 : (BufferedVideoStream.push s v).buf.length ≤ 1 := by rw [h1]; simp
    simpa [BufferedVideoStream.pushAll] using
      ih (BufferedVideoStream.push s v) hm h3 f

/-! ## Claim C2 -/

/-- Claim C2: with the default capacity 1 the frame slot holds at most one
pending frame; a push onto a full slot evicts the old frame and installs the
new one; and after any sequence of produced frames ending in `f`, with no
consumer reads, `read()` returns exactly `f`, never an earlier frame. -/
theorem C2_drop_oldest (fs : List Nat) (f a : Nat) (l : Option Nat) :
    (BufferedVideoStream.pushAll (BufferedVideoStream.initBuf 1) fs).buf.length ≤ 1 ∧
    (BufferedVideoStream.push { buf := [a], maxsize := 1, last_frame := l } f).buf = [f] ∧
    (BufferedVideoStream.read
        (BufferedVideoStream.pushAll (BufferedVideoStream.initBuf 1) (fs ++ [f]))).1
      = some f := by
  refine ⟨?_, ?_, ?_⟩
  · exact BufferedVideoStream.pushAll_len_le_one fs _ rfl (by simp [BufferedVideoStream.initBuf])
  · exact BufferedVideoStream.push_buf_of_le_one _ f rfl (by simp)
  · have hb := BufferedVideoStream.pushAll_concat_buf fs
      (BufferedVideoStream.initBuf 1) rfl (by simp [BufferedVideoStream.initBuf]) f
    simp [BufferedVideoStream.read, hb]

/-! ## Claim C5 -/

/-- Claim C5: the k-th consecutive connect failure sleeps
`min(maxBackoff, minBackoff * 2^(k-1)) + jitter`; the base delays are
non-decreasing in k (until capped at `maxBackoff`); and each total delay
lies between the base and `maxBackoff` plus the jitter bound 0.3. -/
theorem C5_backoff (lo hi : ℚ) (k : Nat) (j : ℚ)
    (hk : 1 ≤ k) (hlo : 0 ≤ lo) (hlh : lo ≤ hi) (hj : 0 ≤ j) (hjb : j < 3/10) :
    BufferedVideoStream.connectFailureDelay lo hi k j
        = min hi (lo * 2 ^ (k - 1)) + j ∧
    BufferedVideoStream.sleep_with_backoff_base lo hi k false
        ≤ BufferedVideoStream.sleep_with_backoff_base lo hi (k + 1) false ∧
    BufferedVideoStream.sleep_with_backoff_base lo hi k false
        ≤ BufferedVideoStream.connectFailureDelay lo hi k j ∧
    BufferedVideoStream.connectFailureDelay lo hi k j ≤ hi + 3/10 := by
  refine ⟨rfl, ?_, ?_, ?_⟩
  · show min hi (lo * 2 ^ (k - 1)) ≤ min hi (lo * 2 ^ (k + 1 - 1))
    refine min_le_min le_rfl (mul_le_mul_of_nonneg_left ?_ hlo)
    exact pow_le_pow_right₀ (by norm_num) (by omega)
  · exact le_add_of_nonneg_right hj
  · show min hi (lo * 2 ^ (k - 1)) + j ≤ hi + 3/10
    exact add_le_add (min_le_left _ _) hjb.le

/-- Witness for `C5_backoff` at the constructor defaults
`reconnect_backoff = (0.5, 8.0)`, the third failure, jitter 0.1. -/
theorem C5_backoff_witness :
    BufferedVideoStream.connectFailureDelay (1/2) 8 3 (1/10)
        = min 8 ((1/2 : ℚ) * 2 ^ (3 - 1)) + 1/10 ∧
    BufferedVideoStream.sleep_with_backoff_base (1/2) 8 3 false
        ≤ BufferedVideoStream.sleep_with_backoff_base (1/2) 8 (3 + 1) false ∧
    BufferedVideoStream.sleep_with_backoff_base (1/2) 8 3 false
        ≤ BufferedVideoStream.connectFailureDelay (1/2) 8 3 (1/10) ∧
    BufferedVideoStream.connectFailureDelay (1/2) 8 3 (1/10) ≤ 8 + 3/10 :=
  C5_backoff (1/2) 8 3 (1/10) (by norm_num) (by norm_num) (by norm_num)
    (by norm_num) (by norm_num)

/-! ## Retry-budget lemmas -/

/-- With no retry limit the loop never dies and the counter just counts. -/
theorem BufferedVideoStream.afterFailures_none (k : Nat) :
    BufferedVideoStream.afterFailures none k
      = { retry_count := k, alive := true } := by
  induction k with
  | zero => rfl
  | succ k ih =>
    rw [BufferedVideoStream.afterFailures, ih]
    simp [BufferedVideoStream.onConnectFailure]

/-- With limit `m` the loop dies exactly when the counter reaches
`max m 1` (the increment that makes `retry_count >= m` hold). -/
theorem BufferedVideoStream.afterFailures_some (m : Nat) :
    ∀ k, BufferedVideoStream.afterFailures (some m) k
      = { retry_count := min k (max m 1), alive := decide (k < max m 1) } := by
  intro k
  induction k with
  | zero => simp [BufferedVideoStream.afterFailures]
  | succ k ih =>
    rw [BufferedVideoStream.afterFailures, ih]
    by_cases h : k < max m 1
    · have hrc : min k (max m 1) = k := by omega
      have halive : (decide (k < max m 1)) = true := by simpa using h
      simp only [BufferedVideoStream.onConnectFailure, hrc, halive, if_pos]
      have h1 : min (k + 1) (max m 1) = k + 1 := by omega
      have h2 : (!decide (m ≤ k + 1)) = decide (k + 1 < max m 1) := by
        by_cases hm : m ≤ k + 1 <;> simp [hm] <;> omega
      rw [h1, h2]
    · have halive : (decide (k < max m 1)) = false := by simpa using h
      have h1 : min (k + 1) (max m 1) = min k (max m 1) := by omega
      have h2 : (decide (k + 1 < max m 1)) = false := by simp; omega
      simp only [BufferedVideoStream.onConnectFailure, halive, h1, h2]
      simp

/-! ## Claim C6 -/

/-- Claim C6 counterexample: with `max_retries = 3`, after the third
consecutive connect failure the retry counter equals 3 — it has not
exceeded `max_retries` — yet the background loop is already dead
(`run` breaks on `_retry_count >= max_retries`), contradicting the claim
that the loop keeps retrying for every count up to and including
`max_retries`. -/
theorem C6_counterexample :
    (BufferedVideoStream.afterFailures (some 3) 3).retry_count = 3 ∧
    (BufferedVideoStream.get_status
        (BufferedVideoStream.afterFailures (some 3) 3)).alive = false ∧
    (BufferedVideoStream.get_status
        (BufferedVideoStream.afterFailures (some 3) 2)).alive = true := by
  decide

/-- Claim C6 (amended): with `max_retries = None` the loop retries forever;
with `max_retries = m` the loop terminates permanently exactly when the
incremented retry counter reaches `m` (clamped below by 1): it retries for
every count strictly below `m`, and the failure that brings the counter to
`m` kills it. The death is observable through `get_status()` (`alive`
false, `retry_count` frozen at `max(m,1)`). -/
theorem C6_retry_budget (m k : Nat) :
    (BufferedVideoStream.afterFailures none k).alive = true ∧
    ((BufferedVideoStream.get_status
        (BufferedVideoStream.afterFailures (some m) k)).alive = false
      ↔ max m 1 ≤ k) ∧
    (BufferedVideoStream.get_status
        (BufferedVideoStream.afterFailures (some m) k)).retry_count
      = min k (max m 1) := by
  refine ⟨?_, ?_, ?_⟩
  · rw [BufferedVideoStream.afterFailures_none]
  · rw [BufferedVideoStream.afterFailures_some]
    show (decide (k < max m 1) = false) ↔ _
    simp
    omega
  · rw [BufferedVideoStream.afterFailures_some]
    rfl

/-! ## ApiController._request: layered retry -/

/-- A transport-level exception raised by the session send:
`ConnectionError`, `ReadTimeout` or `Timeout`. -/
structure TransportError where
  msg : String
deriving DecidableEq

/-- `_FakeResponse(599, ...)`: the synthetic hard-failure response; its
`json()` raises (no `_json_obj`) and it carries no headers. -/
def _FakeResponse : Response :=
  { status_code := 599, body := Body.noJson, retry_after := none }

/-- Trace of one `_request` call: the response handed back to the caller
plus the observable side effects along the way (number of `_do_send` calls,
`_reset_session` calls, `authenticate` calls, and the 429 sleep if any). -/
structure ReqTrace where
  result : Response
  sends_used : Nat
  session_resets : Nat
  reauths : Nat
  sleep429 : Option Int
deriving DecidableEq

/-- The 429 `Retry-After` sleep: 0 when the header is absent, the parsed
integer when it parses, 1 when present but unparseable, then clamped by
`min(max(delay, 1), 10)`. -/
def retry_after_delay (h : Option (Option Int)) : Int :=
  let d : Int :=
    match h with
    | none => 0
    | some none => 1
    | some (some n) => n
  min (max d 1) 10

/-- Last block of `_request`: a 5xx response to a POST marked
`allow_retry_post` gets one extra attempt; a transport failure on that
attempt yields the synthetic 599 response. -/
def requestStage5xx (isPost allow_retry_post : Bool)
    (sends : Nat → Except TransportError Response)
    (r : Response) (idx resets reauths : Nat) (sl : Option Int) : ReqTrace :=
  if 500 ≤ r.status_code ∧ isPost = true ∧ allow_retry_post = true then
    match sends idx with
    | .ok r2 =>
        { result := r2, sends_used := idx + 1, session_resets := resets,
          reauths := reauths, sleep429 := sl }
    | .error _ =>
        { result := _FakeResponse, sends_used := idx + 1,
          session_resets := resets, reauths := reauths, sleep429 := sl }
  else
    { result := r, sends_used := idx, session_resets := resets,
      reauths := reauths, sleep429 := sl }

/-- 429 block of `_request`: honor `Retry-After` (clamped) and retry once;
a transport failure on the retry yields the synthetic 599 response. -/
def requestStage429 (isPost allow_retry_post : Bool)
    (sends : Nat → Except TransportError Response)
    (r : Response) (idx resets reauths : Nat) : ReqTrace :=
  if r.status_code = 429 then
    match sends idx with
    | .ok r2 =>
        requestStage5xx isPost allow_retry_post sends r2 (idx + 1)
          resets reauths (some (retry_after_delay r.retry_after))
    | .error _ =>
        { result := _FakeResponse, sends_used := idx + 1,
          session_resets := resets, reauths := reauths,
          sleep429 := some (retry_after_delay r.retry_after) }
  else requestStage5xx isPost allow_retry_post sends r idx resets reauths none

/-- 401 block of `_request`: re-authenticate (under the auth lock) and retry
once; a transport failure on the retry yields the synthetic 599 response. -/
def requestStage401 (isPost allow_retry_post : Bool)
    (sends : Nat → Except TransportError Response)
    (r : Response) (idx resets reauths : Nat) : ReqTrace :=
  if r.status_code = 401 then
    match sends idx with
    | .ok r2 =>
        requestStage429 isPost allow_retry_post sends r2 (idx + 1)
          resets (reauths + 1)
    | .error _ =>
        { result := _FakeResponse, sends_used := idx + 1,
          session_resets := resets, reauths := reauths + 1, sleep429 := none }
  else requestStage429 isPost allow_retry_post sends r idx resets reauths

/-- `ApiController._request`: the first attempt; on a transport failure the
session is torn down and rebuilt (`_reset_session`) and the request retried
once; a second consecutive transport failure returns `_FakeResponse(599)`.
The surviving response then flows through the 401, 429 and 5xx blocks.
`sends i` is the outcome of the (i+1)-th `_do_send()`. -/
def ApiController._request (isPost allow_retry_post : Bool)
    (sends : Nat → Except TransportError Response) : ReqTrace :=
  match sends 0 with
  | .ok r => requestStage401 isPost allow_retry_post sends r 1 0 0
  | .error _ =>
      match sends 1 with
      | .ok r => requestStage401 isPost allow_retry_post sends r 2 1 0
      | .error _ =>
          { result := _FakeResponse, sends_used := 2, session_resets := 1,
            reauths := 0, sleep429 := none }

/-- The 5xx block never resets the session. -/
theorem requestStage5xx_resets (p a : Bool)
    (sends : Nat → Except TransportError Response)
    (r : Response) (idx resets reauths : Nat) (sl : Option Int) :
    (requestStage5xx p a sends r idx resets reauths sl).session_resets
      = resets := by
  unfold requestStage5xx
  split
  · split <;> rfl
  · rfl

/-- The 429 block never resets the session. -/
theorem requestStage429_resets (p a : Bool)
    (sends : Nat → Except TransportError Response)
    (r : Response) (idx resets reauths : Nat) :
    (requestStage429 p a sends r idx resets reauths).session_resets
      = resets := by
  unfold requestStage429
  split
  · split
    · rw [requestStage5xx_resets]
    · rfl
  · rw [requestStage5xx_resets]

/-- The 401 block never resets the session. -/
theorem requestStage401_resets (p a : Bool)
    (sends : Nat → Except TransportError Response)
    (r : Response) (idx resets reauths : Nat) :
    (requestStage401 p a sends r idx resets reauths).session_resets
      = resets := by
  unfold requestStage401
  split
  · split
    · rw [requestStage429_resets]
    · rfl
  · rw [requestStage429_resets]

/-! ## Claim C7 -/

/-- Claim C7 counterexample: a request whose first attempt returns 401 and
whose retry after re-authentication hits its first transport failure gets
the synthetic 599 response after only one transport failure, with no session
rebuild and no transport-level retry — contradicting "a first transport
failure tears down and rebuilds the session and retries exactly once" and
"599 only on a second consecutive transport failure". -/
theorem C7_counterexample :
    (ApiController._request false false
        (fun i => if i = 0
          then Except.ok { status_code := 401, body := Body.noJson }
          else Except.error { msg := "timeout" }))
      = { result := _FakeResponse, sends_used := 2, session_resets := 0,
          reauths := 1, sleep429 := none } := by
  decide

/-- Claim C7 (amended): a transport failure on the initial attempt tears
down and rebuilds the session and the request is retried exactly once; a
second consecutive transport failure on that retry returns the synthetic
599 response (never an exception); but a transport failure on any of the
401, 429 or 5xx retry attempts returns the synthetic 599 immediately, with
no session rebuild and no further transport-level retry. -/
theorem C7_transport_retry (isPost arp : Bool)
    (sends : Nat → Except TransportError Response)
    (e e2 : TransportError) (r r401 r429 r5 : Response) :
    (sends 0 = Except.error e → sends 1 = Except.error e2 →
      ApiController._request isPost arp sends
        = { result := _FakeResponse, sends_used := 2, session_resets := 1,
            reauths := 0, sleep429 := none }) ∧
    (sends 0 = Except.error e → sends 1 = Except.ok r →
      ApiController._request isPost arp sends
          = requestStage401 isPost arp sends r 2 1 0 ∧
        (ApiController._request isPost arp sends).session_resets = 1) ∧
    (sends 0 = Except.ok r401 → r401.status_code = 401 →
      sends 1 = Except.error e →
      ApiController._request isPost arp sends
        = { result := _FakeResponse, sends_used := 2, session_resets := 0,
            reauths := 1, sleep429 := none }) ∧
    (sends 0 = Except.ok r429 → r429.status_code = 429 →
      sends 1 = Except.error e →
      ApiController._request isPost arp sends
        = { result := _FakeResponse, sends_used := 2, session_resets := 0,
            reauths := 0,
            sleep429 := some (retry_after_delay r429.retry_after) }) ∧
    (isPost = true → arp = true → sends 0 = Except.ok r5 →
      500 ≤ r5.status_code → sends 1 = Except.error e →
      ApiController._request isPost arp sends
        = { result := _FakeResponse, sends_used := 2, session_resets := 0,
            reauths := 0, sleep429 := none }) := by
  refine ⟨?_, ?_, ?_, ?_, ?_⟩
  · intro h0 h1
    simp only [ApiController._request, h0, h1]
  · intro h0 h1
    constructor
    · simp only [ApiController._request, h0, h1]
    · simp only [ApiController._request, h0, h1]
      rw [requestStage401_resets]
  · intro h0 h401 h1
    simp only [ApiController._request, h0, requestStage401, h401, if_pos, h1]
  · intro h0 h429 h1
    simp only [ApiController._request, h0, requestStage401]
    rw [if_neg (by rw [h429]; decide)]
    simp only [requestStage429]
    rw [if_pos h429, h1]
  · intro hpost harp h0 h5 h1
    simp only [ApiController._request, h0, requestStage401]
    rw [if_neg (by omega)]
    simp only [requestStage429]
    rw [if_neg (by omega)]
    simp only [requestStage5xx]
    rw [if_pos ⟨h5, hpost, harp⟩, h1]

/-- Witness for `C7_transport_retry`: both attempts time out, so the caller
receives the synthetic 599 after one rebuild and one retry. -/
theorem C7_transport_retry_witness :
    (ApiController._request false false (fun _ => Except.error { msg := "t" }))
      = { result := _FakeResponse, sends_used := 2, session_resets := 1,
          reauths := 0, sleep429 := none } :=
  (C7_transport_retry false false (fun _ => Except.error { msg := "t" })
      { msg := "t" } { msg := "t" } _FakeResponse _FakeResponse _FakeResponse
      _FakeResponse).1 rfl rfl

/-! ## ApiController.list_images: pagination -/

/-- The scan loop of `ApiController.list_images`, with explicit fuel for the
`while True` loop and a log of the `skip` values requested. Each iteration
requests one page via `list_images_page(po, folder, skip, take)` (modelled
as `pageAt skip`); an empty page stops the scan, a short page is appended
and stops the scan, otherwise `skip` advances by `take`. -/
def ApiController.list_images_go (pageAt : Nat → List Nat) (take : Nat) :
    Nat → Nat → List Nat → List Nat → List Nat × List Nat
  | 0, _, acc, reqs => (acc, reqs)
  | fuel + 1, skip, acc, reqs =>
      let page := pageAt skip
      let reqs2 := reqs ++ [skip]
      if page = [] then (acc, reqs2)
      else if page.length < take then (acc ++ page, reqs2)
      else
        ApiController.list_images_go pageAt take fuel (skip + take)
          (acc ++ page) reqs2

/-- `ApiController.list_images`: scan all pages starting at `skip = 0`,
returning the aggregated items and the requested `skip` values. -/
def ApiController.list_images (pageAt : Nat → List Nat) (take fuel : Nat) :
    List Nat × List Nat :=
  ApiController.list_images_go pageAt take fuel 0 [] []

/-- The requested `skip` values are always the consecutive multiples of
`take`, starting at 0. -/
theorem ApiController.list_images_go_reqs
    (pageAt : Nat → List Nat) (take : Nat) :
    ∀ (fuel k : Nat) (acc : List Nat),
      (ApiController.list_images_go pageAt take fuel (k * take) acc
          ((List.range k).map (· * take))).2
        = (List.range
            (ApiController.list_images_go pageAt take fuel (k * take) acc
              ((List.range k).map (· * take))).2.length).map (· * take) := by
  intro fuel
  induction fuel with
  | zero => intro k acc; simp [ApiController.list_images_go]
  | succ fuel ih =>
    intro k acc
    rw [ApiController.list_images_go]
    have hreq : ((List.range k).map (· * take)) ++ [k * take]
        = (List.range (k + 1)).map (· * take) := by
      rw [List.range_succ, List.map_append]; rfl
    simp only [hreq]
    by_cases h1 : pageAt (k * take) = []
    · simp only [h1, if_pos]
      simp
    · rw [if_neg h1]
      by_cases h2 : (pageAt (k * take)).length < take
      · rw [if_pos h2]
        simp
      · rw [if_neg h2]
        have hskip : k * take + take = (k + 1) * take := by ring
        rw [hskip]
        exact ih (k + 1) (acc ++ pageAt (k * take))

/-- The mocked paged backend of the spec: pages of sizes 500, 500 and 137
at `skip` 0, 500 and 1000, nothing beyond. -/
def pagedBackendPages (skip : Nat) : List Nat :=
  if skip = 0 then List.replicate 500 0
  else if skip = 500 then List.replicate 500 1
  else if skip = 1000 then List.replicate 137 2
  else []

/-- Unfolding step of the scan: a non-empty full page is appended and the
scan continues at `skip + take`. -/
theorem ApiController.list_images_go_long (pageAt : Nat → List Nat)
    (take fuel skip : Nat) (acc reqs : List Nat)
    (h1 : ¬ pageAt skip = []) (h2 : ¬ (pageAt skip).length < take) :
    ApiController.list_images_go pageAt take (fuel + 1) skip acc reqs
      = ApiController.list_images_go pageAt take fuel (skip + take)
          (acc ++ pageAt skip) (reqs ++ [skip]) := by
  rw [ApiController.list_images_go]
  simp only [if_neg h1, if_neg h2]

/-- Unfolding step of the scan: a non-empty short page is appended and the
scan stops. -/
theorem ApiController.list_images_go_short (pageAt : Nat → List Nat)
    (take fuel skip : Nat) (acc reqs : List Nat)
    (h1 : ¬ pageAt skip = []) (h2 : (pageAt skip).length < take) :
    ApiController.list_images_go pageAt take (fuel + 1) skip acc reqs
      = (acc ++ pageAt skip, reqs ++ [skip]) := by
  rw [ApiController.list_images_go]
  simp only [if_neg h1, if_pos h2]

/-- Full evaluation of the scan on the mocked backend with `take = 500`. -/
theorem ApiController.list_images_pagedBackend :
    ApiController.list_images pagedBackendPages 500 9
      = ((List.replicate 500 0 ++ List.replicate 500 1) ++ List.replicate 137 2,
         [0, 500, 1000]) := by
  have p0 : pagedBackendPages 0 = List.replicate 500 0 := rfl
  have p1 : pagedBackendPages 500 = List.replicate 500 1 := rfl
  have p2 : pagedBackendPages 1000 = List.replicate 137 2 := rfl
  show ApiController.list_images_go pagedBackendPages 500 9 0 [] [] = _
  rw [show (9 : Nat) = 8 + 1 from rfl,
    ApiController.list_images_go_long pagedBackendPages 500 8 0 [] []
      (by rw [p0, List.replicate_eq_nil_iff]; omega)
      (by rw [p0, List.length_replicate]; omega)]
  norm_num [p0]
  rw [show (8 : Nat) = 7 + 1 from rfl,
    ApiController.list_images_go_long pagedBackendPages 500 7 500 _ _
      (by rw [p1, List.replicate_eq_nil_iff]; omega)
      (by rw [p1, List.length_replicate]; omega)]
  norm_num [p1]
  rw [show (7 : Nat) = 6 + 1 from rfl,
    ApiController.list_images_go_short pagedBackendPages 500 6 1000 _ _
      (by rw [p2, List.replicate_eq_nil_iff]; omega)
      (by rw [p2, List.length_replicate]; omega)]
  rw [p2]
  simp only [List.append_assoc, List.cons_append, List.nil_append]

/-! ## Claim C9 -/

/-- Claim C9: `list_images` requests successive pages with `skip` increasing
by `take` from 0 (the request log is always the list of consecutive
multiples of `take`); on the mocked backend with page sizes 500, 500, 137
and `take = 500` it aggregates exactly 1137 items, in page order, and issues
no request beyond the short page. -/
theorem C9_pagination :
    (∀ (pageAt : Nat → List Nat) (take fuel : Nat),
      (ApiController.list_images pageAt take fuel).2
        = (List.range
            (ApiController.list_images pageAt take fuel).2.length).map
              (· * take)) ∧
    (ApiController.list_images pagedBackendPages 500 9).1
      = (List.replicate 500 0 ++ List.replicate 500 1) ++ List.replicate 137 2 ∧
    (ApiController.list_images pagedBackendPages 500 9).1.length = 1137 ∧
    (ApiController.list_images pagedBackendPages 500 9).2 = [0, 500, 1000] := by
  refine ⟨?_, ?_, ?_, ?_⟩
  · intro pageAt take fuel
    have h := ApiController.list_images_go_reqs pageAt take fuel 0 []
    simpa [ApiController.list_images] using h
  · rw [ApiController.list_images_pagedBackend]
  · rw [ApiController.list_images_pagedBackend]
    simp only [List.length_append, List.length_replicate]
  · rw [ApiController.list_images_pagedBackend]

/-! ## extract_anomaly_polygon: contour ranking -/

/-- The per-contour attributes computed by the selection loop of
`extract_anomaly_polygon` for one external contour of the thresholded mask:
the bounding-box area `w*h` from `cv2.boundingRect`, the mean score inside
the contour (`cv2.mean` under the contour mask), the maximum score inside
the contour (`cv2.minMaxLoc` under the mask), and whether the contour
contains the global peak (`cv2.pointPolygonTest(c, maxLoc, False) >= 0`).
Scores are rationals standing for the clamped [0,1] float values. -/
structure Contour where
  bbox_area : ℚ
  mean_val : ℚ
  local_max : ℚ
  contains_peak : Bool
deriving DecidableEq

/-- The ranking tuple `(1 if contains_peak else 0, float(mean_val))`. -/
def scoreOf (c : Contour) : Nat × ℚ :=
  ((if c.contains_peak then 1 else 0), c.mean_val)

/-- Python tuple comparison `score > best[0]`: lexicographic, the first
component dominating. -/
def tupleGt (a b : Nat × ℚ) : Prop :=
  b.1 < a.1 ∨ (a.1 = b.1 ∧ b.2 < a.2)

instance (a b : Nat × ℚ) : Decidable (tupleGt a b) := by
  unfold tupleGt; infer_instance

/-- One iteration of the selection loop of `extract_anomaly_polygon`:
skip the contour if its bounding box is smaller than `area_min` or its
maximum score is below `tau_strong`; otherwise install it as best iff there
is no best yet or its `(contains_peak, mean)` tuple is strictly greater
(first seen wins ties). -/
def selectStep (area_min tau_strong : ℚ)
    (best : Option ((Nat × ℚ) × Contour)) (c : Contour) :
    Option ((Nat × ℚ) × Contour) :=
  if c.bbox_area < area_min then best
  else if c.local_max < tau_strong then best
  else
    match best with
    | none => some (scoreOf c, c)
    | some b =>
        if tupleGt (scoreOf c) b.1 then some (scoreOf c, c) else best

/-- The full selection loop over the contours returned by
`cv2.findContours`, threading the running best. -/
def selectBest (area_min tau_strong : ℚ) (cs : List Contour)
    (best : Option ((Nat × ℚ) × Contour)) : Option ((Nat × ℚ) × Contour) :=
  cs.foldl (selectStep area_min tau_strong) best

theorem selectBest_nil (area_min tau_strong : ℚ) (best) :
    selectBest area_min tau_strong [] best = best := rfl

theorem selectBest_cons (area_min tau_strong : ℚ) (c : Contour) (cs : List Contour) (best) :
    selectBest area_min tau_strong (c :: cs) best
      = selectBest area_min tau_strong cs (selectStep area_min tau_strong best c) := rfl

/-- A contour survives the two filters. -/
def survivesP (area_min tau_strong : ℚ) (c : Contour) : Prop :=
  ¬ c.bbox_area < area_min ∧ ¬ c.local_max < tau_strong

/-- The stored score is always the score of the stored contour. -/
def scoreMatches : Option ((Nat × ℚ) × Contour) → Prop
  | none => True
  | some b => b.1 = scoreOf b.2

/-- The current best, if any, contains the global peak. -/
def hasPeak : Option ((Nat × ℚ) × Contour) → Prop
  | none => False
  | some b => b.2.contains_peak = true

/-- A candidate beating a peak-containing best must itself contain the
peak: the containment bit dominates the tuple order. -/
theorem tupleGt_peak (c : Contour) (b : (Nat × ℚ) × Contour)
    (hb : b.1 = scoreOf b.2) (hbp : b.2.contains_peak = true)
    (h : tupleGt (scoreOf c) b.1) : c.contains_peak = true := by
  rw [hb] at h
  unfold tupleGt scoreOf at h
  rw [hbp] at h
  cases hc : c.contains_peak
  · rw [hc] at h
    simp at h
  · rfl

/-- A best not beaten by a surviving peak-containing candidate must itself
contain the peak. -/
theorem not_tupleGt_peak (c : Contour) (b : (Nat × ℚ) × Contour)
    (hb : b.1 = scoreOf b.2) (hcp : c.contains_peak = true)
    (h : ¬ tupleGt (scoreOf c) b.1) : b.2.contains_peak = true := by
  rw [hb] at h
  unfold tupleGt scoreOf at h
  rw [hcp] at h
  cases hbp : b.2.contains_peak
  · rw [hbp] at h
    simp at h
  · rfl

/-- One step keeps the stored score matching the stored contour. -/
theorem selectStep_scoreMatches (area_min tau_strong : ℚ)
    (best : Option ((Nat × ℚ) × Contour)) (c : Contour)
    (hm : scoreMatches best) :
    scoreMatches (selectStep area_min tau_strong best c) := by
  unfold selectStep
  by_cases h1 : c.bbox_area < area_min
  · rw [if_pos h1]; exact hm
  · rw [if_neg h1]
    by_cases h2 : c.local_max < tau_strong
    · rw [if_pos h2]; exact hm
    · rw [if_neg h2]
      cases best with
      | none => exact rfl
      | some b =>
        dsimp only
        by_cases h3 : tupleGt (scoreOf c) b.1
        · rw [if_pos h3]; exact rfl
        · rw [if_neg h3]; exact hm

/-- One step preserves "the best contains the peak". -/
theorem selectStep_hasPeak (area_min tau_strong : ℚ)
    (best : Option ((Nat × ℚ) × Contour)) (c : Contour)
    (hm : scoreMatches best) (hp : hasPeak best) :
    hasPeak (selectStep area_min tau_strong best c) := by
  unfold selectStep
  by_cases h1 : c.bbox_area < area_min
  · rw [if_pos h1]; exact hp
  · rw [if_neg h1]
    by_cases h2 : c.local_max < tau_strong
    · rw [if_pos h2]; exact hp
    · rw [if_neg h2]
      cases best with
      | none => exact absurd hp id
      | some b =>
        dsimp only
        by_cases h3 : tupleGt (scoreOf c) b.1
        · rw [if_pos h3]; exact tupleGt_peak c b hm hp h3
        · rw [if_neg h3]; exact hp

/-- A surviving peak-containing contour forces the best to contain the
peak after its step. -/
theorem selectStep_install_peak (area_min tau_strong : ℚ)
    (best : Option ((Nat × ℚ) × Contour)) (c : Contour)
    (hm : scoreMatches best) (hs : survivesP area_min tau_strong c)
    (hcp : c.contains_peak = true) :
    hasPeak (selectStep area_min tau_strong best c) := by
  unfold selectStep
  rw [if_neg hs.1, if_neg hs.2]
  cases best with
  | none => exact hcp
  | some b =>
    dsimp only
    by_cases h3 : tupleGt (scoreOf c) b.1
    · rw [if_pos h3]; exact hcp
    · rw [if_neg h3]; exact not_tupleGt_peak c b hm hcp h3

/-- Core invariant: if the current best contains the peak, or some later
surviving contour contains the peak, the final best contains the peak. -/
theorem selectBest_hasPeak (area_min tau_strong : ℚ) :
    ∀ (cs : List Contour) (best : Option ((Nat × ℚ) × Contour)),
      scoreMatches best →
      (hasPeak best ∨
        ∃ c ∈ cs, survivesP area_min tau_strong c ∧ c.contains_peak = true) →
      hasPeak (selectBest area_min tau_strong cs best) := by
  intro cs
  induction cs with
  | nil =>
    intro best hm hd
    rcases hd with h | ⟨c, hc, _⟩
    · simpa [selectBest_nil] using h
    · simp at hc
  | cons c cs ih =>
    intro best hm hd
    rw [selectBest_cons]
    have hm2 := selectStep_scoreMatches area_min tau_strong best c hm
    rcases hd with h | ⟨d, hd2, hds, hdp⟩
    · exact ih _ hm2 (Or.inl (selectStep_hasPeak area_min tau_strong best c hm h))
    · rcases List.mem_cons.mp hd2 with rfl | hd3
      · exact ih _ hm2
          (Or.inl (selectStep_install_peak area_min tau_strong best d hm hds hdp))
      · exact ih _ hm2 (Or.inr ⟨d, hd3, hds, hdp⟩)

/-! ## Claim C3 -/

/-- Claim C3: whenever some contour surviving the minimum-area and
`tau_strong` filters contains the global peak, the contour selected by the
loop contains the global peak — regardless of any mean scores. -/
theorem C3_peak_precedence (area_min tau_strong : ℚ) (cs : List Contour)
    (h : ∃ c ∈ cs, survivesP area_min tau_strong c ∧ c.contains_peak = true) :
    hasPeak (selectBest area_min tau_strong cs none) :=
  selectBest_hasPeak area_min tau_strong cs none trivial (Or.inr h)

/-- Witness for `C3_peak_precedence`: a larger contour with higher mean not
containing the peak against a smaller, lower-mean contour containing it;
the peak one is selected. -/
theorem C3_peak_precedence_witness :
    hasPeak (selectBest 10 (4/5)
      [{ bbox_area := 200, mean_val := 9/10, local_max := 19/20,
         contains_peak := false },
       { bbox_area := 50, mean_val := 1/2, local_max := 9/10,
         contains_peak := true }] none) :=
  C3_peak_precedence 10 (4/5) _
    ⟨{ bbox_area := 50, mean_val := 1/2, local_max := 9/10,
       contains_peak := true },
     by simp, ⟨by norm_num, by norm_num⟩, rfl⟩

/-! ## extract_anomaly_polygon: fallback box -/

/-- The nominal side of the fallback square:
`size = max(min_box_px, int(round(min(H, W) * min_box_frac)))`. -/
def fallbackSize (H W min_box_px : ℤ) (min_box_frac : ℚ) : ℤ :=
  max min_box_px (round (((min H W : ℤ) : ℚ) * min_box_frac))

/-- `x1 = max(0, min(p - size // 2, L - 1))` for axis length `L` and peak
coordinate `p` (Python floor division). -/
def fbX1 (L p size : ℤ) : ℤ :=
  max 0 (min (p - Int.fdiv size 2) (L - 1))

/-- `x2 = max(x1 + 1, min(x1 + size, L))`. -/
def fbX2 (L p size : ℤ) : ℤ :=
  max (fbX1 L p size + 1) (min (fbX1 L p size + size) L)

/-- The clamped pixel corners of the fallback square. -/
structure BoxPx where
  x1 : ℤ
  y1 : ℤ
  x2 : ℤ
  y2 : ℤ
deriving DecidableEq

/-- The fallback square of `extract_anomaly_polygon` around the peak
`(px, py)`. -/
def fallbackBoxPx (H W px py size : ℤ) : BoxPx :=
  { x1 := fbX1 W px size, y1 := fbX1 H py size,
    x2 := fbX2 W px size, y2 := fbX2 H py size }

/-- `_norm` applied to one pixel point: divide by `max(1, W)` / `max(1, H)`
and `np.clip` the result into [0, 1]. -/
def normPoint (W H : ℤ) (p : ℤ × ℤ) : ℚ × ℚ :=
  (min 1 (max 0 ((p.1 : ℚ) / ((max 1 W : ℤ) : ℚ))),
   min 1 (max 0 ((p.2 : ℚ) / ((max 1 H : ℤ) : ℚ))))

/-- The fallback branch of `extract_anomaly_polygon` (`best is None`):
the polygon `[[x1,y1],[x2,y1],[x2,y2],[x1,y2]]`, normalized. -/
def fallbackPoly (H W px py min_box_px : ℤ) (min_box_frac : ℚ) :
    List (ℚ × ℚ) :=
  let size := fallbackSize H W min_box_px min_box_frac
  let b := fallbackBoxPx H W px py size
  [normPoint W H (b.x1, b.y1), normPoint W H (b.x2, b.y1),
   normPoint W H (b.x2, b.y2), normPoint W H (b.x1, b.y2)]

/-- Per-axis bounds of the fallback square: the corner pair is clamped to
`[0, L]`, non-degenerate, its extent is `min(size, L - x1)`, and it reaches
the full nominal size whenever that fits to the right of `x1`. -/
theorem fb_axis_bounds (L p s : ℤ) (hL : 1 ≤ L) (hs : 1 ≤ s) :
    0 ≤ fbX1 L p s ∧ fbX1 L p s < fbX2 L p s ∧ fbX2 L p s ≤ L ∧
    fbX2 L p s - fbX1 L p s = min s (L - fbX1 L p s) ∧
    (s ≤ L - fbX1 L p s → fbX2 L p s - fbX1 L p s = s) := by
  unfold fbX2 fbX1
  generalize p - Int.fdiv s 2 = a
  omega

/-- Every normalized point lies in the unit square. -/
theorem normPoint_mem_unit (W H : ℤ) (p : ℤ × ℤ) :
    0 ≤ (normPoint W H p).1 ∧ (normPoint W H p).1 ≤ 1 ∧
    0 ≤ (normPoint W H p).2 ∧ (normPoint W H p).2 ≤ 1 := by
  unfold normPoint
  refine ⟨le_min (by norm_num) (le_max_left _ _), min_le_left _ _,
    le_min (by norm_num) (le_max_left _ _), min_le_left _ _⟩

/-! ## Claim C4 -/

/-- Claim C4 counterexample: frame 100×100, peak at (99, 99),
`min_box_px = 32`, `min_box_frac = 0.06`. The nominal side is 32, but the
returned box is truncated at the frame edge: its width is 17 < 32, so the
result is neither a square of side `max(min_box_px, round(min(H,W)*frac))`
nor of side at least `min_box_px`. -/
theorem C4_counterexample :
    fallbackSize 100 100 32 (3/50) = 32 ∧
    (fallbackBoxPx 100 100 99 99 (fallbackSize 100 100 32 (3/50))).x2
        - (fallbackBoxPx 100 100 99 99 (fallbackSize 100 100 32 (3/50))).x1
      = 17 ∧
    ¬ (32 : ℤ) ≤ 17 ∧
    fallbackPoly 100 100 99 99 32 (3/50)
      = [(83/100, 83/100), (1, 83/100), (1, 1), (83/100, 1)] := by
  have hsz : fallbackSize 100 100 32 (3/50) = 32 := by
    rw [fallbackSize]
    norm_num [round_eq]
  refine ⟨hsz, ?_, by decide, ?_⟩
  · rw [hsz]
    decide
  · have hbox : fallbackBoxPx 100 100 99 99 32
        = { x1 := 83, y1 := 83, x2 := 100, y2 := 100 } := by decide
    simp only [fallbackPoly, hsz, hbox]
    norm_num [normPoint, min_def, max_def]

/-- Claim C4 (amended): when no contour survives, the extractor builds a
box of nominal side `size = max(min_box_px, round(min(H,W) * min_box_frac))`
anchored near the peak: the corners are clamped inside the frame and
non-degenerate, the extent on each axis is `min(size, L - x1)` — equal to
the full nominal side (hence ≥ `min_box_px`) whenever that fits, but
possibly smaller near the far edges or on frames smaller than the nominal
side — and the four returned points are normalized into the unit square. -/
theorem C4_fallback_box (H W px py min_box_px s : ℤ) (min_box_frac : ℚ)
    (b : BoxPx) (hW : 1 ≤ W) (hH : 1 ≤ H) (hm : 1 ≤ min_box_px)
    (hs : s = fallbackSize H W min_box_px min_box_frac)
    (hb : b = fallbackBoxPx H W px py s) :
    min_box_px ≤ s ∧
    (0 ≤ b.x1 ∧ b.x1 < b.x2 ∧ b.x2 ≤ W) ∧
    (0 ≤ b.y1 ∧ b.y1 < b.y2 ∧ b.y2 ≤ H) ∧
    b.x2 - b.x1 = min s (W - b.x1) ∧
    b.y2 - b.y1 = min s (H - b.y1) ∧
    (s ≤ W - b.x1 → b.x2 - b.x1 = s) ∧
    (s ≤ H - b.y1 → b.y2 - b.y1 = s) ∧
    (∀ q ∈ fallbackPoly H W px py min_box_px min_box_frac,
      0 ≤ q.1 ∧ q.1 ≤ 1 ∧ 0 ≤ q.2 ∧ q.2 ≤ 1) := by
  have hms : min_box_px ≤ s := hs ▸ le_max_left _ _
  have hs1 : 1 ≤ s := le_trans hm hms
  subst hb
  obtain ⟨a1, a2, a3, a4, a5⟩ := fb_axis_bounds W px s hW hs1
  obtain ⟨c1, c2, c3, c4, c5⟩ := fb_axis_bounds H py s hH hs1
  refine ⟨hms, ⟨a1, a2, a3⟩, ⟨c1, c2, c3⟩, a4, c4, a5, c5, ?_⟩
  intro q hq
  simp only [fallbackPoly, List.mem_cons, List.not_mem_nil, or_false] at hq
  rcases hq with rfl | rfl | rfl | rfl <;> exact normPoint_mem_unit _ _ _

/-- Witness for `C4_fallback_box`: the spec's all-zero-map scenario, peak at
(0,0) on a 100×100 frame; here the box has the full nominal side 32. -/
theorem C4_fallback_box_witness :
    (32 : ℤ) ≤ 32 ∧
    (0 ≤ (fallbackBoxPx 100 100 0 0 32).x1 ∧
      (fallbackBoxPx 100 100 0 0 32).x1 < (fallbackBoxPx 100 100 0 0 32).x2 ∧
      (fallbackBoxPx 100 100 0 0 32).x2 ≤ 100) ∧
    (0 ≤ (fallbackBoxPx 100 100 0 0 32).y1 ∧
      (fallbackBoxPx 100 100 0 0 32).y1 < (fallbackBoxPx 100 100 0 0 32).y2 ∧
      (fallbackBoxPx 100 100 0 0 32).y2 ≤ 100) ∧
    (fallbackBoxPx 100 100 0 0 32).x2 - (fallbackBoxPx 100 100 0 0 32).x1
      = min 32 (100 - (fallbackBoxPx 100 100 0 0 32).x1) ∧
    (fallbackBoxPx 100 100 0 0 32).y2 - (fallbackBoxPx 100 100 0 0 32).y1
      = min 32 (100 - (fallbackBoxPx 100 100 0 0 32).y1) ∧
    ((32 : ℤ) ≤ 100 - (fallbackBoxPx 100 100 0 0 32).x1 →
      (fallbackBoxPx 100 100 0 0 32).x2 - (fallbackBoxPx 100 100 0 0 32).x1 = 32) ∧
    ((32 : ℤ) ≤ 100 - (fallbackBoxPx 100 100 0 0 32).y1 →
      (fallbackBoxPx 100 100 0 0 32).y2 - (fallbackBoxPx 100 100 0 0 32).y1 = 32) ∧
    (∀ q ∈ fallbackPoly 100 100 0 0 32 (3/50),
      0 ≤ q.1 ∧ q.1 ≤ 1 ∧ 0 ≤ q.2 ∧ q.2 ≤ 1) :=
  C4_fallback_box 100 100 0 0 32 32 (3/50) (fallbackBoxPx 100 100 0 0 32)
    (by norm_num) (by norm_num) (by norm_num)
    (by rw [fallbackSize]; norm_num [round_eq]) rfl

/-! ## run_inference: at most one detection per tick -/

/-- The inner loop of `run_inference` over the `(pred_score, anomaly_map)`
pairs of one batch, carrying the index of the current pair: pairs whose
score is below the threshold are skipped (`continue`); the first pair
reaching the threshold is processed (polygon, classification, upload) and
the loop breaks, returning that pair's index. -/
def processBatch (thresh : ℚ) : List ℚ → Nat → Option Nat
  | [], _ => none
  | s :: rest, i =>
      if s < thresh then processBatch thresh rest (i + 1) else some i

/-- The double loop of `run_inference`: the inner loop runs over the first
batch only — the outer `break` is unconditional after the inner loop — so
later batches are never examined. Returns the `(batch index, pair index)`
of each detection submitted in this tick. -/
def tickDetections (thresh : ℚ) (predictions : List (List ℚ)) :
    List (Nat × Nat) :=
  match predictions with
  | [] => []
  | b :: _ =>
      match processBatch thresh b 0 with
      | none => []
      | some i => [(0, i)]

/-- `processBatch` returns the index of the first score reaching the
threshold, relative to its starting index: the found score is not below the
threshold and every earlier score is. -/
theorem processBatch_some_spec (thresh : ℚ) :
    ∀ (ss : List ℚ) (k i : Nat), processBatch thresh ss k = some i →
      k ≤ i ∧ (∃ s, ss[i - k]? = some s ∧ ¬ s < thresh) ∧
        ∀ j s, j < i - k → ss[j]? = some s → s < thresh := by
  intro ss
  induction ss with
  | nil => intro k i h; simp [processBatch] at h
  | cons v rest ih =>
    intro k i h
    rw [processBatch] at h
    by_cases hv : v < thresh
    · rw [if_pos hv] at h
      obtain ⟨h1, ⟨s, hs1, hs2⟩, h3⟩ := ih (k + 1) i h
      have hik : i - k = (i - (k + 1)) + 1 := by omega
      refine ⟨by omega, ⟨s, ?_, hs2⟩, ?_⟩
      · rw [hik, List.getElem?_cons_succ]
        exact hs1
      · intro j s2 hj hjget
        cases j with
        | zero =>
          rw [List.getElem?_cons_zero] at hjget
          cases hjget
          exact hv
        | succ j2 =>
          rw [List.getElem?_cons_succ] at hjget
          exact h3 j2 s2 (by omega) hjget
    · rw [if_neg hv] at h
      cases h
      refine ⟨le_refl k, ⟨v, ?_, hv⟩, ?_⟩
      · rw [Nat.sub_self, List.getElem?_cons_zero]
      · intro j s2 hj _
        omega

/-! ## Claim C10 -/

/-- Claim C10: each tick submits at most one detection; the result depends
only on the first batch (later batches are never examined); every submitted
detection comes from the first batch; and the submitted pair is the first
one in the first batch whose score reaches the threshold, all earlier pairs
being below it. -/
theorem C10_single_detection (thresh : ℚ) (preds : List (List ℚ)) :
    (tickDetections thresh preds).length ≤ 1 ∧
    (∀ (b : List ℚ) (rest rest2 : List (List ℚ)),
      tickDetections thresh (b :: rest) = tickDetections thresh (b :: rest2)) ∧
    (∀ p ∈ tickDetections thresh preds, p.1 = 0) ∧
    (∀ (b : List ℚ) (rest : List (List ℚ)) (i : Nat),
      preds = b :: rest → (0, i) ∈ tickDetections thresh preds →
      (∃ s, b[i]? = some s ∧ ¬ s < thresh) ∧
      (∀ j s, j < i → b[j]? = some s → s < thresh)) := by
  refine ⟨?_, ?_, ?_, ?_⟩
  · cases preds with
    | nil => simp [tickDetections]
    | cons b rest =>
      rw [tickDetections]
      cases processBatch thresh b 0 <;> simp
  · intro b rest rest2
    rfl
  · cases preds with
    | nil => simp [tickDetections]
    | cons b rest =>
      rw [tickDetections]
      cases processBatch thresh b 0 with
      | none => simp
      | some i => simp
  · intro b rest i hp hmem
    subst hp
    rw [tickDetections] at hmem
    cases hpb : processBatch thresh b 0 with
    | none => rw [hpb] at hmem; simp at hmem
    | some m =>
      rw [hpb] at hmem
      simp at hmem
      obtain ⟨h1, ⟨s, hs1, hs2⟩, h3⟩ := processBatch_some_spec thresh b 0 m hpb
      rw [Nat.sub_zero] at hs1 h3
      rw [hmem]
      exact ⟨⟨s, hs1, hs2⟩, h3⟩

/-- Witness for `C10_single_detection`: threshold 0.8, first batch scores
0.5, 0.9, 0.95 — exactly one detection, from the first pair reaching the
threshold (index 1); the second batch is ignored. -/
theorem C10_single_detection_witness :
    (tickDetections (4/5) [[1/2, 9/10, 19/20], [1]]).length ≤ 1 ∧
    ((∃ s, ([1/2, 9/10, 19/20] : List ℚ)[1]? = some s ∧ ¬ s < 4/5) ∧
      (∀ j s, j < 1 → ([1/2, 9/10, 19/20] : List ℚ)[j]? = some s →
        s < 4/5)) := by
  have hev : tickDetections (4/5) [[1/2, 9/10, 19/20], [1]] = [(0, 1)] := by
    rw [tickDetections, processBatch]
    norm_num
    rw [processBatch]
    norm_num
  refine ⟨(C10_single_detection (4/5) [[1/2, 9/10, 19/20], [1]]).1,
    (C10_single_detection (4/5) [[1/2, 9/10, 19/20], [1]]).2.2.2
      [1/2, 9/10, 19/20] [[1]] 1 rfl ?_⟩
  rw [hev]
  simp
